import Mathlib

/-!
# Verification of the spruned aggregation / connection-pool core

A shallow embedding, in Lean 4, of the value-object aggregation service
(`spruned/service/spruned_vo_service.py`), the Electrum connection pool and
peer scoring (`spruned/daemon/electrod/electrod_connection.py`) and the
on-disk cache backend (`spruned/service/file_cache_interface.py`), together
with theorems settling the specification claims about them.

Conventions of the embedding:

* Python/JSON values are modelled by the inductive `PyVal`; Python truthiness
  by `pyTruthy`; Python `==` by `pyEq` (structural equality on the JSON value
  domain: the RPC responses, blocks and transactions these functions handle
  are JSON data, where the cross-type numeric equalities of full Python such
  as `True == 1` do not arise).
* Python `assert` failures, `KeyError`, `TypeError` and the like are modelled
  by `Except` with the error enumeration `PyErr`; the daemon's exception
  types by `PoolErr`.
* `async` functions are embedded as pure functions over the data they touch;
  the scheduled `on_error` task of a peer is applied to the peer state at the
  point it is created (single-threaded cooperative scheduling: the task runs
  before any further score observation relevant to the claims).
* Randomised selection (`random.choice`) is factored out: functions receive
  the already-selected peers' responses as an argument.
-/

/-- Python/JSON values as handled by the aggregation and pool code. -/
inductive PyVal where
  | none
  | bool (b : Bool)
  | int (n : Int)
  | str (s : String)
  | list (xs : List PyVal)
  | dict (kvs : List (String × PyVal))

/-- Python truthiness (`bool(v)`): `None`, `False`, `0`, `""`, `[]`, `{}`
are falsy, everything else truthy. -/
def pyTruthy : PyVal → Bool
  | .none => false
  | .bool b => b
  | .int n => n != 0
  | .str s => s != ""
  | .list xs => !xs.isEmpty
  | .dict kvs => !kvs.isEmpty

mutual

/-- Python `==` on the JSON value domain: structural equality. -/
def pyEq : PyVal → PyVal → Bool
  | .none, .none => true
  | .bool a, .bool b => a == b
  | .int a, .int b => a == b
  | .str a, .str b => a == b
  | .list xs, .list ys => pyEqList xs ys
  | .dict xs, .dict ys => pyEqKVs xs ys
  | _, _ => false

/-- Python `==` on lists, elementwise. -/
def pyEqList : List PyVal → List PyVal → Bool
  | [], [] => true
  | x :: xs, y :: ys => pyEq x y && pyEqList xs ys
  | _, _ => false

/-- Python `==` on dict items (dicts compared in canonical key order). -/
def pyEqKVs : List (String × PyVal) → List (String × PyVal) → Bool
  | [], [] => true
  | (k1, v1) :: xs, (k2, v2) :: ys => k1 == k2 && pyEq v1 v2 && pyEqKVs xs ys
  | _, _ => false

end

mutual

theorem pyEq_refl : ∀ v : PyVal, pyEq v v = true
  | .none => rfl
  | .bool b => by simp [pyEq]
  | .int n => by simp [pyEq]
  | .str s => by simp [pyEq]
  | .list xs => by simp [pyEq, pyEqList_refl xs]
  | .dict kvs => by simp [pyEq, pyEqKVs_refl kvs]

theorem pyEqList_refl : ∀ xs : List PyVal, pyEqList xs xs = true
  | [] => rfl
  | x :: xs => by simp [pyEqList, pyEq_refl x, pyEqList_refl xs]

theorem pyEqKVs_refl : ∀ xs : List (String × PyVal), pyEqKVs xs xs = true
  | [] => rfl
  | (k, v) :: xs => by simp [pyEqKVs, pyEq_refl v, pyEqKVs_refl xs]

end

mutual

theorem pyEq_eq : ∀ {v w : PyVal}, pyEq v w = true → v = w
  | .none, .none, _ => rfl
  | .bool a, .bool b, h => by simpa [pyEq] using congrArg PyVal.bool (by simpa [pyEq] using h)
  | .int a, .int b, h => by
      have : a = b := by simpa [pyEq] using h
      rw [this]
  | .str a, .str b, h => by
      have : a = b := by simpa [pyEq] using h
      rw [this]
  | .list xs, .list ys, h => by
      have : xs = ys := pyEqList_eq (by simpa [pyEq] using h)
      rw [this]
  | .dict xs, .dict ys, h => by
      have : xs = ys := pyEqKVs_eq (by simpa [pyEq] using h)
      rw [this]

theorem pyEqList_eq : ∀ {xs ys : List PyVal}, pyEqList xs ys = true → xs = ys
  | [], [], _ => rfl
  | x :: xs, y :: ys, h => by
      simp only [pyEqList, Bool.and_eq_true] at h
      rw [pyEq_eq h.1, pyEqList_eq h.2]

theorem pyEqKVs_eq :
    ∀ {xs ys : List (String × PyVal)}, pyEqKVs xs ys = true → xs = ys
  | [], [], _ => rfl
  | (k1, v1) :: xs, (k2, v2) :: ys, h => by
      simp only [pyEqKVs, Bool.and_eq_true] at h
      obtain ⟨⟨hk, hv⟩, ht⟩ := h
      rw [show k1 = k2 by simpa using hk, pyEq_eq hv, pyEqKVs_eq ht]

end

instance : BEq PyVal := ⟨pyEq⟩

instance : LawfulBEq PyVal where
  eq_of_beq := pyEq_eq
  rfl := pyEq_refl _

instance : DecidableEq PyVal := fun a b =>
  decidable_of_iff (pyEq a b = true) ⟨pyEq_eq, fun h => h ▸ pyEq_refl a⟩

/-- A Python dict with string keys, in its (insertion-) order of items. -/
abbrev PyDict := List (String × PyVal)

/-- `d.get(k)` / `d[k]` lookup on a dict (first matching key). -/
def dictGet (kvs : PyDict) (k : String) : Option PyVal :=
  (kvs.find? (fun e => e.1 = k)).map (·.2)

/-- Python numeric coercion used by arithmetic and comparisons:
ints are themselves, bools are 0 / 1, anything else is not a number. -/
def toNum : PyVal → Option Int
  | .int n => some n
  | .bool b => some (if b then 1 else 0)
  | _ => Option.none

/-- Python exception kinds raised by the embedded service code. -/
inductive PyErr where
  | assertionError
  | typeError
  | keyError
  | indexError
  | notImplementedError
deriving DecidableEq, Repr

namespace SprunedVOService

/-- `SprunedVOService.MAX_TIME_DIVERGENCE_TOLERANCE_BETWEEN_SERVICES = 10`. -/
def MAX_TIME_DIVERGENCE_TOLERANCE_BETWEEN_SERVICES : Int := 10

/-- The collected values of `_get_key`:
`_dd = [x[_k] for x in data if x.get(_k) is not None]` (the `_data`
parameter of `_get_key` is shadowed by the closure over `data`, so the
collection always ranges over the full response list). -/
def collectKey (k : String) (data : List PyDict) : List PyVal :=
  data.filterMap (fun x =>
    match dictGet x k with
    | some v => if v = PyVal.none then Option.none else some v
    | Option.none => Option.none)

/-- One adjacent-pair assertion of `_get_key`: for the key `time`,
`assert abs(x - _dd[i+1]) < self.MAX_TIME_DIVERGENCE_TOLERANCE_BETWEEN_SERVICES`
(a `TypeError` if either operand is not a number), for every other key
`assert x == _dd[i+1]`. -/
def adjPair (k : String) (x y : PyVal) : Except PyErr Unit :=
  if k = "time" then
    match toNum x, toNum y with
    | some a, some b =>
        if |a - b| < MAX_TIME_DIVERGENCE_TOLERANCE_BETWEEN_SERVICES then .ok ()
        else .error .assertionError
    | _, _ => .error .typeError
  else if pyEq x y then .ok () else .error .assertionError

/-- The assertion loop of `_get_key`:
`for i, x in enumerate(_dd): if i < len(_dd) - 2: <check (x, _dd[i+1])>`.
The guard `i < len(_dd) - 2` checks the pair at `(i, i+1)` only while at
least one further element follows, hence the recursion on three-or-more
element lists. -/
def checkAdj (k : String) : List PyVal → Except PyErr Unit
  | x :: y :: z :: rest =>
      match adjPair k x y with
      | .ok _ => checkAdj k (y :: z :: rest)
      | .error e => .error e
  | _ => .ok ()

/-- `_get_key(_k, _data)`: collect the non-null values, run the assertion
loop, and return `_dd and _dd[0] or None` (which is `None` when `_dd` is
empty or its first element is falsy). -/
def getKey (k : String) (data : List PyDict) : Except PyErr PyVal :=
  match checkAdj k (collectKey k data) with
  | .error e => .error e
  | .ok _ =>
    .ok (match collectKey k data with
      | [] => PyVal.none
      | h :: _ => if pyTruthy h then h else PyVal.none)

/-- One iteration of the `for k, v in res.items()` loop of `_join_data`:
if `v is None` the entry is replaced by `_get_key(k, data[1:])`, otherwise
`assert v == _get_key(k, data[1:])` and the entry is kept. -/
def joinEntry (data : List PyDict) (kv : String × PyVal) :
    Except PyErr (String × PyVal) :=
  match getKey kv.1 data with
  | .error e => .error e
  | .ok r =>
    if kv.2 = PyVal.none then .ok (kv.1, r)
    else if pyEq kv.2 r then .ok kv
    else .error .assertionError

/-- `SprunedVOService._join_data(data)`: assert at least `min_sources`
responses (each a dict by the type of the embedding), then rewrite
`res = data[0]` entry by entry. -/
def joinData (minSources : Nat) (data : List PyDict) : Except PyErr PyDict :=
  if data.length < minSources then .error .assertionError
  else
    match data with
    | [] => .error .indexError
    | res :: _ => res.mapM (joinEntry data)

end SprunedVOService

/-- The mutable state of one `ElectrodConnection` that the claims concern:
`_score` (initially `start_score`), the `connected` property
(`bool(self.client.protocol)`), the negotiated `_version` and the length of
the `_errors` list. -/
structure ElectrodConnection where
  score : Int
  connected : Bool
  version : Option PyVal
  errors : Nat
deriving DecidableEq

namespace ElectrodConnection

/-- A freshly constructed connection with the default `start_score=10`. -/
def init : ElectrodConnection :=
  { score := 10, connected := false, version := Option.none, errors := 0 }

/-- `ElectrodConnection.on_error(error)`: append the error to `_errors` and
decrement `_score` by 1 (the registered error callbacks are then fired). -/
def on_error (p : ElectrodConnection) : ElectrodConnection :=
  { p with errors := p.errors + 1, score := p.score - 1 }

/-- A failing `ElectrodConnection.connect()`: the `except` branch runs
`self._score -= 4` and schedules `self.on_error(e)`. -/
def connect_failure (p : ElectrodConnection) : ElectrodConnection :=
  on_error { p with score := p.score - 4 }

/-- A successful `ElectrodConnection.connect()`: records the negotiated
version (`self._version = await self.client.connect(...)`), after which the
client transport exists, so `connected` is true; the score is not touched. -/
def connect_success (v : PyVal) (p : ElectrodConnection) : ElectrodConnection :=
  { p with version := some v, connected := true }

/-- `ElectrodConnection.rpc_call` catching a timeout or transport exception:
the handler only logs and schedules `self.on_error(e)`; neither the client
nor the transport is touched. -/
def rpc_call_failure (p : ElectrodConnection) : ElectrodConnection :=
  on_error p

/-- `ElectrodConnection._poll_queue` catching an exception: the handler runs
`self._score -= 1` and additionally schedules `self.on_error(e)`. -/
def poll_queue_failure (p : ElectrodConnection) : ElectrodConnection :=
  on_error { p with score := p.score - 1 }

end ElectrodConnection

/-- The score-relevant events a connection can undergo. -/
inductive PeerEvent where
  | rpcFailure
  | connectFailure
  | connectSuccess (v : PyVal)
  | pollQueueFailure
deriving DecidableEq

/-- Apply one event to a connection's state. -/
def applyEvent (p : ElectrodConnection) : PeerEvent → ElectrodConnection
  | .rpcFailure => ElectrodConnection.rpc_call_failure p
  | .connectFailure => ElectrodConnection.connect_failure p
  | .connectSuccess v => ElectrodConnection.connect_success v p
  | .pollQueueFailure => ElectrodConnection.poll_queue_failure p

/-- Apply a sequence of events in order. -/
def applyEvents (p : ElectrodConnection) (evs : List PeerEvent) : ElectrodConnection :=
  evs.foldl applyEvent p

/-- The total score decrement one event causes (the direct decrement plus
the one from the scheduled `on_error` task, when one is scheduled). -/
def eventPenalty : PeerEvent → Int
  | .rpcFailure => 1
  | .connectFailure => 5
  | .connectSuccess _ => 0
  | .pollQueueFailure => 2

/-- Total score decrement of a sequence of events. -/
def penaltySum (evs : List PeerEvent) : Int := (evs.map eventPenalty).sum

/-- The exception types raised by `ElectrodConnectionPool.call`
(`ValueError`, `NoPeersException`, `ElectrodMissingResponseException`,
`NoQuorumOnResponsesException(responses)`), together with the
`RuntimeError('Task got bad yield')` that `asyncio.gather` raises in the
`agreement > 1` branch (see `ElectrodConnectionPool.call`). -/
inductive PoolErr where
  | valueError
  | noPeers
  | missingResponse
  | noQuorum (responses : List PyVal)
  | runtimeError
deriving DecidableEq

namespace ElectrodConnectionPool

/-- `ElectrodConnectionPool._handle_responses(responses)`: a single response
is returned as is; otherwise the first response equal (`==`) to every
collected response is returned, and `NoQuorumOnResponsesException(responses)`
is raised when there is none.  Its only caller is the `agreement > 1`
branch of `call`, whose `asyncio.gather` misuse raises before any response
is collected (see `call`), so at runtime this method is never reached. -/
def handle_responses (responses : List PyVal) : Except PoolErr PyVal :=
  if responses.length = 1 then .ok (responses.headD PyVal.none)
  else
    match responses.find? (fun r => responses.count r == responses.length) with
    | some r => .ok r
    | Option.none => .error (.noQuorum responses)

/-- `ElectrodConnectionPool.call(method, params, agreement, get_peer)`.
The randomly picked usable peers are abstracted into the list of results
their `rpc_call` would produce: `responses` has one entry per picked peer,
`some r` when `rpc_call` returned `r` and `none` when it swallowed an
exception and returned `None`.  For `agreement == 1` exactly one peer is
picked, so the head of `responses` is its result.  For `agreement > 1` the
source runs
`responses = await asyncio.gather(connection.rpc_call(method, params) for connection in servers)`
— a bare generator expression passed to `asyncio.gather` without `*`
unpacking, so `gather` wraps the single generator in a task that fails with
`RuntimeError('Task got bad yield')` as soon as the generator yields its
first coroutine: no RPC is awaited, nothing is collected, and the
`r is not None` filter, the missing-response check and `_handle_responses`
below it are never reached. -/
def call (requiredConnections establishedCount agreement : Nat) (getPeer : Bool)
    (responses : List (Option PyVal)) : Except PoolErr PyVal :=
  if getPeer ∧ 1 < agreement then .error .valueError
  else if requiredConnections < agreement then .error .valueError
  else if establishedCount < agreement then .error .noPeers
  else if 1 < agreement then .error .runtimeError
  else
    match responses.headD Option.none with
    | some r => if pyTruthy r then .ok r else .error .missingResponse
    | Option.none => .error .missingResponse

/-- `ElectrodConnectionPool._handle_peer_error(peer)`: returns whether a
`peer.disconnect()` task is scheduled.  A peer that is not connected is
ignored; otherwise `if not peer.score` (int falsiness: score equal to 0)
schedules a disconnect, and a falsy `peer.ping(timeout=2)` result schedules
one as well. -/
def handle_peer_error (p : ElectrodConnection) (pingOk : Bool) : Bool :=
  if !p.connected then false
  else decide (p.score = 0) || !pingOk

end ElectrodConnectionPool

/-- The abstract `CacheInterface` the aggregation service talks to, as a
key-value store over `(namespace, key)` (later writes shadow earlier ones). -/
abbrev SvcCache := List ((String × PyVal) × PyVal)

/-- `cache.get(namespace, key)`. -/
def cacheGet (c : SvcCache) (ns : String) (key : PyVal) : Option PyVal :=
  (c.find? (fun e => e.1 = (ns, key))).map (·.2)

/-- `cache.set(namespace, key, value)`. -/
def cacheSet (c : SvcCache) (ns : String) (key : PyVal) (v : PyVal) : SvcCache :=
  ((ns, key), v) :: c

/-- The `maybe_cached(method)` decorator of `spruned_vo_service.py`, applied
to a function.  In the source, `maybe_cached(method)` evaluates to
`functools.wraps(wrapper)`, i.e. to
`functools.partial(functools.update_wrapper, wrapped=wrapper)`; decorating a
method `f` with it therefore calls `functools.update_wrapper(f, wrapper)`,
which copies metadata onto `f` and returns `f` itself.  The decoration is
the identity on behaviour: the cache-consulting `wrapper` body never runs
(and could not succeed if it did, since on a miss it recurses into itself
instead of calling the wrapped method). -/
def maybe_cached (_method : String) (f : α) : α := f

namespace SprunedVOService

/-- `SprunedVOService.getblock(blockhash)` after decoration (see
`maybe_cached`): scatter `getblock` over the picked services (their
responses are the `responses` argument), join, then
`block['confirmations'] > 3 and self.cache and self.cache.set('getblock', blockhash, block)`,
and return the block.  A missing `confirmations` key is a `KeyError`, a
non-numeric one a `TypeError` of the `>` comparison.  The cache is assumed
attached (`add_cache` ran), as in the wired application. -/
def getblock (minSources : Nat) (cache : SvcCache) (responses : List PyDict)
    (blockhash : PyVal) : Except PyErr PyDict × SvcCache :=
  match joinData minSources responses with
  | .error e => (.error e, cache)
  | .ok block =>
    match dictGet block "confirmations" with
    | Option.none => (.error .keyError, cache)
    | some c =>
      match toNum c with
      | Option.none => (.error .typeError, cache)
      | some n =>
        if 3 < n then (.ok block, cacheSet cache "getblock" blockhash (.dict block))
        else (.ok block, cache)

/-- `SprunedVOService.getrawtransaction(txid, verbose)` after decoration:
scatter, join, then
`self.cache and transaction['blockhash'] and self.cache.get('getblock', transaction['blockhash']) and self.cache.set('getrawtransaction', txid, transaction)`,
then `raise NotImplementedError` when `verbose`, else return
`transaction['rawtx']`.  The write-through happens iff the joined
transaction's `blockhash` is truthy and the cached `getblock` entry for it
is a hit (a truthy stored value). -/
def getrawtransaction (minSources : Nat) (cache : SvcCache)
    (responses : List PyDict) (txid : PyVal) (verbose : Bool) :
    Except PyErr PyVal × SvcCache :=
  match joinData minSources responses with
  | .error e => (.error e, cache)
  | .ok t =>
    match dictGet t "blockhash" with
    | Option.none => (.error .keyError, cache)
    | some bh =>
      let doWrite := pyTruthy bh && ((cacheGet cache "getblock" bh).elim false pyTruthy)
      let cache1 := if doWrite then cacheSet cache "getrawtransaction" txid (.dict t) else cache
      if verbose then (.error .notImplementedError, cache1)
      else
        match dictGet t "rawtx" with
        | some r => (.ok r, cache1)
        | Option.none => (.error .keyError, cache1)

end SprunedVOService

namespace FileCacheInterface

/-- The directory prefix of an entry:
`prefix = a[1].lstrip('0')[:2] + '/'` (first two characters of the key
after stripping leading `'0'` characters). -/
def keyPrefix (key : String) : String :=
  String.mk (((key.data).dropWhile (· = '0')).take 2) ++ "/"

/-- The file path of an entry:
`file = self.directory + prefix + '.'.join((namespace, key)) + '.bin'`
(for `set`, `args = list(a)[:-1] = [namespace, key]`, the same pair `get`
joins). -/
def filePath (directory ns key : String) : String :=
  directory ++ keyPrefix key ++ ns ++ "." ++ key ++ ".bin"

/-- The directory contents, path by path; `pickle.dump`/`pickle.load` are a
faithful round trip, so files hold the stored value itself.  Later writes
shadow earlier ones. -/
abbrev FileSys := List (String × PyVal)

/-- `FileCacheInterface.set(namespace, key, value)` (with `ttl=None`):
write the pickled value at `filePath`. -/
def set (fs : FileSys) (directory ns key : String) (v : PyVal) : FileSys :=
  (filePath directory ns key, v) :: fs

/-- `FileCacheInterface.get(namespace, key)`: unpickle the file at
`filePath`, or `None` on `FileNotFoundError`. -/
def get (fs : FileSys) (directory ns key : String) : Option PyVal :=
  (fs.find? (fun e => e.1 = filePath directory ns key)).map (·.2)

/-- A history of `set` operations `(namespace, key, value)` applied to an
empty directory. -/
def applyOps (directory : String) (ops : List (String × String × PyVal)) : FileSys :=
  ops.foldl (fun fs op => set fs directory op.1 op.2.1 op.2.2) []

end FileCacheInterface

deriving instance DecidableEq for Except

/-- Claim C6 (counterexample): the claim says a failed `connect()` decreases
the score by exactly 4.  On a fresh peer (score 10) one failed connect
leaves score 5, not 10 - 4 = 6: the `except` branch subtracts 4 and then
schedules `on_error`, which subtracts once more. -/
theorem claim6_counterexample :
    (ElectrodConnection.connect_failure ElectrodConnection.init).score = 5
    ∧ ElectrodConnection.init.score = 10
    ∧ ((5 : Int) ≠ 10 - 4) := by
  refine ⟨?_, rfl, by decide⟩
  simp [ElectrodConnection.connect_failure, ElectrodConnection.on_error,
    ElectrodConnection.init]

/-- Claim C6 (amended): a failed `connect()` decreases the score by 4
directly and fires an error event which decrements it once more, for a net
decrease of 5; a successful `connect()` records the negotiated version and
leaves the score unchanged. -/
theorem claim6_connect_effects :
    (∀ p : ElectrodConnection, ElectrodConnection.connect_failure p
        = ElectrodConnection.on_error { p with score := p.score - 4 })
  ∧ (∀ p : ElectrodConnection, (ElectrodConnection.connect_failure p).score = p.score - 5)
  ∧ (∀ p : ElectrodConnection, (ElectrodConnection.connect_failure p).errors = p.errors + 1)
  ∧ (∀ (v : PyVal) (p : ElectrodConnection),
        (ElectrodConnection.connect_success v p).score = p.score
        ∧ (ElectrodConnection.connect_success v p).version = some v) := by
  refine ⟨fun p => rfl, fun p => ?_, fun p => rfl, fun v p => ⟨rfl, rfl⟩⟩
  simp [ElectrodConnection.connect_failure, ElectrodConnection.on_error]
  omega

/-- Claim C7 (confirmed): an RPC timeout or transport error during
`rpc_call` decrements the score by exactly 1 and raises an error event, and
leaves the `connected` flag and negotiated version untouched; two
consecutive RPC failures take a fresh connected peer's score from 10 to 8
and the peer stays selectable (connected with positive score). -/
theorem claim7_rpc_error :
    (∀ p : ElectrodConnection,
        (ElectrodConnection.rpc_call_failure p).score = p.score - 1
        ∧ (ElectrodConnection.rpc_call_failure p).errors = p.errors + 1
        ∧ (ElectrodConnection.rpc_call_failure p).connected = p.connected
        ∧ (ElectrodConnection.rpc_call_failure p).version = p.version)
  ∧ (applyEvents { ElectrodConnection.init with connected := true }
        [PeerEvent.rpcFailure, PeerEvent.rpcFailure]).score = 8
  ∧ (applyEvents { ElectrodConnection.init with connected := true }
        [PeerEvent.rpcFailure, PeerEvent.rpcFailure]).connected = true
  ∧ (0 : Int) < (applyEvents { ElectrodConnection.init with connected := true }
        [PeerEvent.rpcFailure, PeerEvent.rpcFailure]).score := by
  refine ⟨fun p => ⟨rfl, rfl, rfl, rfl⟩, by decide, by decide, by decide⟩

/-- Claim C10 (confirmed): a failure while polling a subscription's queue
decrements the score by 2 in total — once directly in `_poll_queue`'s
handler and once more through the `on_error` task it schedules — whereas an
RPC failure is exactly one `on_error`, a single decrement. -/
theorem claim10_poll_double_decrement :
    (∀ p : ElectrodConnection, ElectrodConnection.poll_queue_failure p
        = ElectrodConnection.on_error { p with score := p.score - 1 })
  ∧ (∀ p : ElectrodConnection, (ElectrodConnection.poll_queue_failure p).score = p.score - 2)
  ∧ (∀ p : ElectrodConnection, ElectrodConnection.rpc_call_failure p = ElectrodConnection.on_error p)
  ∧ (∀ p : ElectrodConnection, (ElectrodConnection.rpc_call_failure p).score = p.score - 1) := by
  refine ⟨fun p => rfl, fun p => ?_, fun p => rfl, fun p => rfl⟩
  simp [ElectrodConnection.poll_queue_failure, ElectrodConnection.on_error]
  omega

theorem applyEvents_score (p : ElectrodConnection) :
    ∀ evs : List PeerEvent, (applyEvents p evs).score = p.score - penaltySum evs := by
  intro evs
  induction evs generalizing p with
  | nil => simp [applyEvents, penaltySum]
  | cons e evs ih =>
    have hstep : (applyEvent p e).score = p.score - eventPenalty e := by
      cases e <;>
        simp [applyEvent, eventPenalty, ElectrodConnection.rpc_call_failure,
          ElectrodConnection.connect_failure, ElectrodConnection.connect_success,
          ElectrodConnection.poll_queue_failure, ElectrodConnection.on_error] <;>
        omega
    calc (applyEvents p (e :: evs)).score
        = (applyEvents (applyEvent p e) evs).score := rfl
      _ = (applyEvent p e).score - penaltySum evs := ih _
      _ = p.score - penaltySum (e :: evs) := by
          rw [hstep]; simp [penaltySum]; omega

theorem penaltySum_nonneg : ∀ evs : List PeerEvent, 0 ≤ penaltySum evs := by
  intro evs
  induction evs with
  | nil => simp [penaltySum]
  | cons e evs ih =>
    have he : 0 ≤ eventPenalty e := by cases e <;> simp [eventPenalty]
    simp only [penaltySum, List.map_cons, List.sum_cons]
    have : penaltySum evs = (evs.map eventPenalty).sum := rfl
    omega

/-- Claim C4 (counterexample): the claim says the score stays within
`[0, start_score]`.  Three consecutive connect failures take a fresh peer
(start score 10) to score -5, which is negative; and the pool's error
handler does nothing for it — not because the peer was removed, but because
an unconnected peer returns early, and even a connected peer with negative
score and a healthy ping is not disconnected (`if not peer.score` is false
for -5). -/
theorem claim4_counterexample :
    (applyEvents ElectrodConnection.init (List.replicate 3 PeerEvent.connectFailure)).score = -5
    ∧ ElectrodConnection.init.score = 10
    ∧ ElectrodConnectionPool.handle_peer_error
        (applyEvents ElectrodConnection.init (List.replicate 3 PeerEvent.connectFailure)) true = false
    ∧ ElectrodConnectionPool.handle_peer_error
        { score := -5, connected := true, version := Option.none, errors := 0 } true = false := by
  refine ⟨by decide, rfl, by decide, by decide⟩

/-- Claim C4 (amended): the score starts at `start_score` and only
decreases — by 1 per error event, with a connect failure costing 4 more
(net 5) and a queue-poll failure 1 more (net 2) — with no lower bound, so
it can become negative.  The pool's error handler ignores peers that are
not connected; for a connected peer it schedules a disconnect when the
score is exactly 0 (or when the ping probe fails), while a negative score
with a healthy ping triggers no disconnect. -/
theorem claim4_score_behaviour :
    (∀ (p : ElectrodConnection) (evs : List PeerEvent),
        (applyEvents p evs).score = p.score - penaltySum evs)
  ∧ (∀ evs : List PeerEvent, 0 ≤ penaltySum evs)
  ∧ (∀ (p : ElectrodConnection) (ok : Bool), p.connected = false →
        ElectrodConnectionPool.handle_peer_error p ok = false)
  ∧ (∀ (p : ElectrodConnection) (ok : Bool), p.connected = true → p.score = 0 →
        ElectrodConnectionPool.handle_peer_error p ok = true)
  ∧ (∀ p : ElectrodConnection, p.connected = true → p.score < 0 →
        ElectrodConnectionPool.handle_peer_error p true = false) := by
  refine ⟨applyEvents_score, penaltySum_nonneg, ?_, ?_, ?_⟩
  · intro p ok h
    simp [ElectrodConnectionPool.handle_peer_error, h]
  · intro p ok hc hs
    simp [ElectrodConnectionPool.handle_peer_error, hc, hs]
  · intro p hc hs
    simp [ElectrodConnectionPool.handle_peer_error, hc]
    omega

/-- Witness for C4 (amended), at a fresh connected peer undergoing two RPC
failures and one poll failure, and at the handler's three concrete cases. -/
theorem claim4_score_behaviour_witness :
    (applyEvents { ElectrodConnection.init with connected := true }
        [PeerEvent.rpcFailure, PeerEvent.pollQueueFailure, PeerEvent.rpcFailure]).score = 10 - 4
    ∧ ElectrodConnectionPool.handle_peer_error
        { score := 3, connected := false, version := Option.none, errors := 0 } true = false
    ∧ ElectrodConnectionPool.handle_peer_error
        { score := 0, connected := true, version := Option.none, errors := 10 } true = true
    ∧ ElectrodConnectionPool.handle_peer_error
        { score := -1, connected := true, version := Option.none, errors := 11 } true = false := by
  refine ⟨?_, ?_, ?_, ?_⟩
  · rw [claim4_score_behaviour.1 _ _]; decide
  · exact claim4_score_behaviour.2.2.1 _ true rfl
  · exact claim4_score_behaviour.2.2.2.1 _ true rfl rfl
  · exact claim4_score_behaviour.2.2.2.2 _ rfl (by decide)

/-- Claim C9 (confirmed): with `agreement=1` (here in a pool with
`required_connections=3` and 3 established peers), `call` raises the
missing-response error for every falsy response value — an empty mapping,
an empty string, and `None` (the value `rpc_call` yields after swallowing
its own exception) — and otherwise returns the response; a timed-out peer
and a peer that genuinely returned an empty result are indistinguishable. -/
theorem claim9_falsy_missing :
    (∀ r : PyVal, ElectrodConnectionPool.call 3 3 1 false [some r]
        = Except.error PoolErr.missingResponse ↔ pyTruthy r = false)
  ∧ ElectrodConnectionPool.call 3 3 1 false [Option.none]
      = Except.error PoolErr.missingResponse
  ∧ ElectrodConnectionPool.call 3 3 1 false [some (PyVal.dict [])]
      = Except.error PoolErr.missingResponse
  ∧ ElectrodConnectionPool.call 3 3 1 false [some (PyVal.str "")]
      = Except.error PoolErr.missingResponse
  ∧ ElectrodConnectionPool.call 3 3 1 false [Option.none]
      = ElectrodConnectionPool.call 3 3 1 false [some (PyVal.dict [])]
  ∧ (∀ r : PyVal, pyTruthy r = true →
        ElectrodConnectionPool.call 3 3 1 false [some r] = Except.ok r) := by
  refine ⟨?_, by decide, by decide, by decide, by decide, ?_⟩
  · intro r
    by_cases h : pyTruthy r = true
    · simp [ElectrodConnectionPool.call, h]
    · simp at h
      simp [ElectrodConnectionPool.call, h]
  · intro r h
    simp [ElectrodConnectionPool.call, h]

/-- Witness for C9, discharging the truthy-case hypothesis at a concrete
non-empty response. -/
theorem claim9_falsy_missing_witness :
    ElectrodConnectionPool.call 3 3 1 false [some (PyVal.str "header")]
      = Except.ok (PyVal.str "header") :=
  claim9_falsy_missing.2.2.2.2.2 (PyVal.str "header") (by decide)

/-- Claim C2 (code bug): the quorum logic the claim describes is what the
dead code below the `gather` call intends, but for every `agreement = k > 1`
within the pool's bounds, `call` raises `RuntimeError('Task got bad yield')`
from its mis-invoked `asyncio.gather` before a single RPC response is
collected — whatever the picked peers would have answered — so neither the
missing-response check nor the agreement rule is ever applied; in
particular a pool of 3 with `agreement=2` and two identical answers raises
instead of returning one of them. -/
theorem claim2_gather_runtime_error :
    (∀ (required established agreement : Nat) (responses : List (Option PyVal)),
        1 < agreement → agreement ≤ required → agreement ≤ established →
        ElectrodConnectionPool.call required established agreement false responses
          = Except.error PoolErr.runtimeError)
  ∧ (∀ responses : List (Option PyVal),
        ElectrodConnectionPool.call 3 3 2 false responses
          = Except.error PoolErr.runtimeError)
  ∧ ElectrodConnectionPool.call 3 3 2 false
        [some (PyVal.dict [("height", PyVal.int 5)]), some (PyVal.dict [("height", PyVal.int 5)])]
      = Except.error PoolErr.runtimeError := by
  have hgen : ∀ (required established agreement : Nat) (responses : List (Option PyVal)),
      1 < agreement → agreement ≤ required → agreement ≤ established →
      ElectrodConnectionPool.call required established agreement false responses
        = Except.error PoolErr.runtimeError := by
    intro required established agreement responses h1 hreq hest
    simp [ElectrodConnectionPool.call, h1, Nat.not_lt.mpr hreq, Nat.not_lt.mpr hest]
  exact ⟨hgen, fun responses => hgen 3 3 2 responses (by decide) (by decide) (by decide),
    hgen 3 3 2 _ (by decide) (by decide) (by decide)⟩

/-- Witness for C2, discharging the bounds hypotheses at a concrete
4-required / 3-established pool with `agreement=2`. -/
theorem claim2_gather_runtime_error_witness :
    ElectrodConnectionPool.call 4 3 2 false [some (PyVal.int 1), some (PyVal.int 1)]
      = Except.error PoolErr.runtimeError :=
  claim2_gather_runtime_error.1 4 3 2 [some (PyVal.int 1), some (PyVal.int 1)]
    (by decide) (by decide) (by decide)

/-- Claim C3 (confirmed): after a successful join, `getblock` writes the
joined block through to the cache iff its integer `confirmations` field
exceeds 3, and `getrawtransaction` writes the joined transaction through
iff its `blockhash` is truthy and the cache lookup `('getblock', blockhash)`
is a hit (a truthy stored entry); in every other case the joined result is
returned but the cache is left unchanged. -/
theorem claim3_write_through :
    (∀ (ms : Nat) (cache : SvcCache) (responses : List PyDict)
        (bh : PyVal) (block : PyDict) (n : Int),
       SprunedVOService.joinData ms responses = Except.ok block →
       dictGet block "confirmations" = some (PyVal.int n) →
       SprunedVOService.getblock ms cache responses bh =
         (Except.ok block,
          if 3 < n then cacheSet cache "getblock" bh (PyVal.dict block) else cache))
  ∧ (∀ (ms : Nat) (cache : SvcCache) (responses : List PyDict)
        (txid : PyVal) (t : PyDict) (bh : PyVal),
       SprunedVOService.joinData ms responses = Except.ok t →
       dictGet t "blockhash" = some bh →
       (SprunedVOService.getrawtransaction ms cache responses txid false).2 =
         (if pyTruthy bh && (cacheGet cache "getblock" bh).elim false pyTruthy
          then cacheSet cache "getrawtransaction" txid (PyVal.dict t) else cache)) := by
  constructor
  · intro ms cache responses bh block n hjoin hconf
    simp only [SprunedVOService.getblock, hjoin, hconf, toNum]
    by_cases h : 3 < n <;> simp [h]
  · intro ms cache responses txid t bh hjoin hbh
    simp only [SprunedVOService.getrawtransaction, hjoin, hbh]
    by_cases h : (pyTruthy bh && (cacheGet cache "getblock" bh).elim false pyTruthy) = true
    · simp only [h, if_true]
      cases hr : dictGet t "rawtx" <;> simp [hr]
    · simp only [Bool.not_eq_true] at h
      simp only [h, Bool.false_eq_true, if_false]
      cases hr : dictGet t "rawtx" <;> simp [hr]

/-- Witness for C3: a block with 10 confirmations is cached, one with 2 is
not; a transaction whose block is cached (truthily) is cached, one whose
block is absent is not. -/
theorem claim3_write_through_witness :
    SprunedVOService.getblock 3 []
        [[("confirmations", PyVal.int 10)], [("confirmations", PyVal.int 10)],
         [("confirmations", PyVal.int 10)]] (PyVal.str "ab")
      = (Except.ok [("confirmations", PyVal.int 10)],
         cacheSet [] "getblock" (PyVal.str "ab")
           (PyVal.dict [("confirmations", PyVal.int 10)]))
    ∧ SprunedVOService.getblock 3 []
        [[("confirmations", PyVal.int 2)], [("confirmations", PyVal.int 2)],
         [("confirmations", PyVal.int 2)]] (PyVal.str "ab")
      = (Except.ok [("confirmations", PyVal.int 2)], [])
    ∧ (SprunedVOService.getrawtransaction 3
        (cacheSet [] "getblock" (PyVal.str "aa") (PyVal.dict [("x", PyVal.int 1)]))
        [[("blockhash", PyVal.str "aa"), ("rawtx", PyVal.str "dd")],
         [("blockhash", PyVal.str "aa"), ("rawtx", PyVal.str "dd")],
         [("blockhash", PyVal.str "aa"), ("rawtx", PyVal.str "dd")]]
        (PyVal.str "t1") false).2
      = cacheSet (cacheSet [] "getblock" (PyVal.str "aa") (PyVal.dict [("x", PyVal.int 1)]))
          "getrawtransaction" (PyVal.str "t1")
          (PyVal.dict [("blockhash", PyVal.str "aa"), ("rawtx", PyVal.str "dd")])
    ∧ (SprunedVOService.getrawtransaction 3 []
        [[("blockhash", PyVal.str "aa"), ("rawtx", PyVal.str "dd")],
         [("blockhash", PyVal.str "aa"), ("rawtx", PyVal.str "dd")],
         [("blockhash", PyVal.str "aa"), ("rawtx", PyVal.str "dd")]]
        (PyVal.str "t1") false).2 = [] := by
  refine ⟨?_, ?_, ?_, ?_⟩
  · rw [claim3_write_through.1 3 []
      [[("confirmations", PyVal.int 10)], [("confirmations", PyVal.int 10)],
       [("confirmations", PyVal.int 10)]] (PyVal.str "ab")
      [("confirmations", PyVal.int 10)] 10 (by decide) (by decide)]
    decide
  · rw [claim3_write_through.1 3 []
      [[("confirmations", PyVal.int 2)], [("confirmations", PyVal.int 2)],
       [("confirmations", PyVal.int 2)]] (PyVal.str "ab")
      [("confirmations", PyVal.int 2)] 2 (by decide) (by decide)]
    decide
  · rw [claim3_write_through.2 3
      (cacheSet [] "getblock" (PyVal.str "aa") (PyVal.dict [("x", PyVal.int 1)]))
      [[("blockhash", PyVal.str "aa"), ("rawtx", PyVal.str "dd")],
       [("blockhash", PyVal.str "aa"), ("rawtx", PyVal.str "dd")],
       [("blockhash", PyVal.str "aa"), ("rawtx", PyVal.str "dd")]]
      (PyVal.str "t1")
      [("blockhash", PyVal.str "aa"), ("rawtx", PyVal.str "dd")]
      (PyVal.str "aa") (by decide) (by decide)]
    decide
  · rw [claim3_write_through.2 3 []
      [[("blockhash", PyVal.str "aa"), ("rawtx", PyVal.str "dd")],
       [("blockhash", PyVal.str "aa"), ("rawtx", PyVal.str "dd")],
       [("blockhash", PyVal.str "aa"), ("rawtx", PyVal.str "dd")]]
      (PyVal.str "t1")
      [("blockhash", PyVal.str "aa"), ("rawtx", PyVal.str "dd")]
      (PyVal.str "aa") (by decide) (by decide)]
    decide

/-- Claim C5 (code bug): `maybe_cached` misapplies `functools.wraps`, so
decorating a method is the identity on behaviour and the cache is never
consulted before the scatter: the value `getblock` returns does not depend
on the cache at all, and with a populated cache entry for the requested
hash the service still scatters, joins and returns the fresh joined block
rather than the cached one. -/
theorem claim5_cache_never_consulted :
    (∀ f : SvcCache → List PyDict → PyVal → Except PyErr PyDict × SvcCache,
        maybe_cached "getblock" f = f)
  ∧ (∀ (ms : Nat) (c1 c2 : SvcCache) (responses : List PyDict) (bh : PyVal),
        (SprunedVOService.getblock ms c1 responses bh).1
          = (SprunedVOService.getblock ms c2 responses bh).1)
  ∧ (SprunedVOService.getblock 3
        (cacheSet [] "getblock" (PyVal.str "ab")
          (PyVal.dict [("confirmations", PyVal.int 10)]))
        [[("confirmations", PyVal.int 2)], [("confirmations", PyVal.int 2)],
         [("confirmations", PyVal.int 2)]]
        (PyVal.str "ab")).1
      = Except.ok [("confirmations", PyVal.int 2)]
    ∧ cacheGet (cacheSet [] "getblock" (PyVal.str "ab")
          (PyVal.dict [("confirmations", PyVal.int 10)])) "getblock" (PyVal.str "ab")
      = some (PyVal.dict [("confirmations", PyVal.int 10)]) := by
  refine ⟨fun f => rfl, ?_, by decide, by decide⟩
  intro ms c1 c2 responses bh
  simp only [SprunedVOService.getblock]
  cases hj : SprunedVOService.joinData ms responses with
  | error e => simp
  | ok block =>
    cases hc : dictGet block "confirmations" with
    | none => simp [hc]
    | some c =>
      simp only [hc]
      cases hn : toNum c with
      | none => simp [hn]
      | some n =>
        simp only [hn]
        by_cases h : 3 < n <;> simp [h]

/-- Claim C8 (counterexample): the claim quantifies over every namespace
and key, but two distinct `(namespace, key)` pairs can map to the same
file.  After `set('x.ab', 'ab', 7)`, a `get('x', 'ab.ab')` — a pair that
was never set — returns the stored value instead of `None`, because both
pairs join to `x.ab.ab` and share the prefix `ab/`. -/
theorem claim8_counterexample :
    FileCacheInterface.get
        (FileCacheInterface.set [] "d/" "x.ab" "ab" (PyVal.int 7)) "d/" "x" "ab.ab"
      = some (PyVal.int 7)
    ∧ FileCacheInterface.filePath "d/" "x.ab" "ab"
        = FileCacheInterface.filePath "d/" "x" "ab.ab"
    ∧ ("x.ab", "ab") ≠ ("x", "ab.ab") := by
  refine ⟨by decide, by decide, by decide⟩

theorem fc_get_set_of_ne (fs : FileCacheInterface.FileSys)
    (d ns key ns' key' : String) (v : PyVal)
    (h : FileCacheInterface.filePath d ns' key' ≠ FileCacheInterface.filePath d ns key) :
    FileCacheInterface.get (FileCacheInterface.set fs d ns' key' v) d ns key
      = FileCacheInterface.get fs d ns key := by
  simp [FileCacheInterface.get, FileCacheInterface.set, List.find?_cons, h]

theorem fc_get_applyOps_aux (d ns key : String) :
    ∀ (ops : List (String × String × PyVal)) (fs : FileCacheInterface.FileSys),
      FileCacheInterface.get fs d ns key = Option.none →
      (∀ op ∈ ops, FileCacheInterface.filePath d op.1 op.2.1
          ≠ FileCacheInterface.filePath d ns key) →
      FileCacheInterface.get
        (ops.foldl (fun fs op => FileCacheInterface.set fs d op.1 op.2.1 op.2.2) fs)
        d ns key = Option.none := by
  intro ops
  induction ops with
  | nil => intro fs h _; exact h
  | cons op ops ih =>
    intro fs h hall
    simp only [List.foldl_cons]
    refine ih _ ?_ (fun o ho => hall o (List.mem_cons_of_mem _ ho))
    rw [fc_get_set_of_ne fs d ns key op.1 op.2.1 op.2.2
      (hall op (List.mem_cons_self _ _))]
    exact h

/-- Claim C8 (amended): `set(namespace, key, value)` stores the value at
`<dir>/<prefix>/<namespace>.<key>.bin` with `prefix` the first two
characters of the key after stripping leading `'0'`s, and a subsequent
`get(namespace, key)` returns the stored value; `get` of a pair whose path
no `set` in the history wrote returns `None` (distinct pairs can share a
path when the namespace contains `'.'`, as in the counterexample, so the
never-set guarantee holds per path, not per pair). -/
theorem claim8_file_cache :
    (∀ (fs : FileCacheInterface.FileSys) (d ns key : String) (v : PyVal),
        FileCacheInterface.get (FileCacheInterface.set fs d ns key v) d ns key = some v)
  ∧ (∀ (d : String) (ops : List (String × String × PyVal)) (ns key : String),
        (∀ op ∈ ops, FileCacheInterface.filePath d op.1 op.2.1
            ≠ FileCacheInterface.filePath d ns key) →
        FileCacheInterface.get (FileCacheInterface.applyOps d ops) d ns key
          = Option.none)
  ∧ FileCacheInterface.keyPrefix "00abcd" = "ab/"
  ∧ FileCacheInterface.filePath "dir/" "getblock" "00abcd"
      = "dir/ab/getblock.00abcd.bin" := by
  refine ⟨?_, ?_, by decide, by decide⟩
  · intro fs d ns key v
    simp [FileCacheInterface.get, FileCacheInterface.set]
  · intro d ops ns key hall
    exact fc_get_applyOps_aux d ns key ops [] rfl hall

/-- Witness for C8 (amended): a one-write history at a different path
leaves a never-set pair unreadable. -/
theorem claim8_file_cache_witness :
    FileCacheInterface.get
        (FileCacheInterface.applyOps "d/" [("a", "bb", PyVal.int 1)]) "d/" "c" "ee"
      = Option.none :=
  claim8_file_cache.2.1 "d/" [("a", "bb", PyVal.int 1)] "c" "ee" (by decide)

/-- Claim C1 (counterexample): the claimed join rule fails in both
directions.  `mediantime` values 100/105/106 are pairwise within 10
seconds, yet `_join_data` raises (only the literal key `time` is
time-tolerant; `mediantime` needs strict equality).  Conversely,
`merkleroot` values 1/1/2 are not all equal, yet `_join_data` accepts them
and returns the first (the loop guard `i < len(_dd) - 2` never checks the
final adjacent pair). -/
theorem claim1_counterexample :
    SprunedVOService.joinData 3
        [[("mediantime", PyVal.int 100)], [("mediantime", PyVal.int 105)],
         [("mediantime", PyVal.int 106)]]
      = Except.error PyErr.assertionError
    ∧ (|(100 : Int) - 105| ≤ 10 ∧ |(100 : Int) - 106| ≤ 10 ∧ |(105 : Int) - 106| ≤ 10)
    ∧ SprunedVOService.joinData 3
        [[("merkleroot", PyVal.int 1)], [("merkleroot", PyVal.int 1)],
         [("merkleroot", PyVal.int 2)]]
      = Except.ok [("merkleroot", PyVal.int 1)]
    ∧ PyVal.int 1 ≠ PyVal.int 2 := by
  refine ⟨by decide, by decide, by decide, by decide⟩

theorem checkAdj_ok_iff (k : String) : ∀ dd : List PyVal,
    SprunedVOService.checkAdj k dd = Except.ok () ↔
      (∀ pre (x y z : PyVal) post, dd = pre ++ x :: y :: z :: post →
        SprunedVOService.adjPair k x y = Except.ok ())
  | [] => by
      constructor
      · intro _ pre x y z post h
        have := congrArg List.length h
        simp at this
        omega
      · intro _
        rfl
  | [a] => by
      constructor
      · intro _ pre x y z post h
        have := congrArg List.length h
        simp at this
        omega
      · intro _
        rfl
  | [a, b] => by
      constructor
      · intro _ pre x y z post h
        have := congrArg List.length h
        simp at this
        omega
      · intro _
        rfl
  | x :: y :: z :: rest => by
      have ih := checkAdj_ok_iff k (y :: z :: rest)
      constructor
      · intro h pre a b c post hdec
        cases hap : SprunedVOService.adjPair k x y with
        | error e =>
          simp only [SprunedVOService.checkAdj, hap] at h
          simp at h
        | ok u =>
          cases u
          simp only [SprunedVOService.checkAdj, hap] at h
          cases pre with
          | nil =>
            simp only [List.nil_append, List.cons.injEq] at hdec
            rw [← hdec.1, ← hdec.2.1]
            exact hap
          | cons p ps =>
            simp only [List.cons_append, List.cons.injEq] at hdec
            exact (ih.mp h) ps a b c post hdec.2
      · intro hAll
        have h0 : SprunedVOService.adjPair k x y = Except.ok () :=
          hAll [] x y z rest rfl
        simp only [SprunedVOService.checkAdj, h0]
        refine ih.mpr ?_
        intro pre a b c post hdec
        exact hAll (x :: pre) a b c post (by rw [List.cons_append, ← hdec])

theorem mapM_except_ok_mem {α β ε : Type} (f : α → Except ε β) :
    ∀ (l : List α) (b : List β), l.mapM f = Except.ok b →
      ∀ a ∈ l, ∃ w, f a = Except.ok w := by
  intro l
  induction l with
  | nil =>
    intro b _ a ha
    exact absurd ha (List.not_mem_nil a)
  | cons x l ih =>
    intro b h a ha
    rw [List.mapM_cons] at h
    cases hfx : f x with
    | error e =>
      rw [hfx] at h
      exact absurd h (by simp [Bind.bind, Except.bind])
    | ok w =>
      rw [hfx] at h
      cases hl : l.mapM f with
      | error e =>
        rw [hl] at h
        exact absurd h (by simp [Bind.bind, Except.bind])
      | ok bs =>
        rcases List.mem_cons.mp ha with rfl | ha'
        · exact ⟨w, hfx⟩
        · exact ih bs hl a ha'

theorem joinData_not_ok_of_getKey_error
    {res : PyDict} {rest : List PyDict} {k : String} {v : PyVal}
    (hmem : (k, v) ∈ res) {e : PyErr}
    (hk : SprunedVOService.getKey k (res :: rest) = Except.error e)
    (ms : Nat) :
    ∀ d, SprunedVOService.joinData ms (res :: rest) ≠ Except.ok d := by
  intro d hok
  rw [SprunedVOService.joinData] at hok
  by_cases hlen : (res :: rest).length < ms
  · rw [if_pos hlen] at hok
    exact absurd hok (by simp)
  · rw [if_neg hlen] at hok
    have hmm : res.mapM (SprunedVOService.joinEntry (res :: rest)) = Except.ok d := hok
    obtain ⟨w, hw⟩ := mapM_except_ok_mem _ res d hmm (k, v) hmem
    simp only [SprunedVOService.joinEntry, hk] at hw
    exact absurd hw (by simp)

/-- Claim C1 (amended): in `_join_data`, only the literal key `time` is
time-tolerant, with strict bound `|Δ| < 10`; every other key (including
`mediantime`) requires equality; and the assertion loop checks only the
adjacent pairs `(i, i+1)` that are followed by at least one further
collected value, so the final adjacent pair is never checked.  A key whose
collected values fail its checks makes `_join_data` raise instead of
returning. -/
theorem claim1_join_rule :
    (∀ (k : String) (dd : List PyVal),
        SprunedVOService.checkAdj k dd = Except.ok () ↔
          (∀ pre (x y z : PyVal) post, dd = pre ++ x :: y :: z :: post →
            SprunedVOService.adjPair k x y = Except.ok ()))
  ∧ (∀ a b : Int,
        SprunedVOService.adjPair "time" (PyVal.int a) (PyVal.int b) = Except.ok ()
          ↔ |a - b| < 10)
  ∧ (∀ (k : String) (x y : PyVal), k ≠ "time" →
        (SprunedVOService.adjPair k x y = Except.ok () ↔ x = y))
  ∧ (∀ (ms : Nat) (res : PyDict) (rest : List PyDict) (k : String)
        (v : PyVal) (e : PyErr),
        (k, v) ∈ res →
        SprunedVOService.getKey k (res :: rest) = Except.error e →
        ∀ d, SprunedVOService.joinData ms (res :: rest) ≠ Except.ok d) := by
  refine ⟨checkAdj_ok_iff, ?_, ?_, ?_⟩
  · intro a b
    simp only [SprunedVOService.adjPair, if_pos rfl, toNum,
      SprunedVOService.MAX_TIME_DIVERGENCE_TOLERANCE_BETWEEN_SERVICES]
    by_cases h : |a - b| < 10
    · simp [h]
    · simp [h]
  · intro k x y hk
    rw [SprunedVOService.adjPair, if_neg hk]
    by_cases h : pyEq x y = true
    · simp only [h, if_true]
      exact ⟨fun _ => pyEq_eq h, fun _ => trivial⟩
    · simp only [h]
      constructor
      · intro hc
        exact absurd hc (by simp [h])
      · intro hxy
        exact absurd (hxy ▸ pyEq_refl x) h
  · intro ms res rest k v e hmem hk
    exact joinData_not_ok_of_getKey_error hmem hk ms

/-- Witness for C1 (amended), at concrete inputs: `mediantime` is compared
for equality (not time tolerance); the `time` tolerance is the strict
`|Δ| < 10`; and the `mediantime` 100/105/106 scatter of the counterexample
indeed makes `_join_data` raise. -/
theorem claim1_join_rule_witness :
    (SprunedVOService.adjPair "mediantime" (PyVal.int 100) (PyVal.int 105)
        = Except.ok () ↔ PyVal.int 100 = PyVal.int 105)
    ∧ (SprunedVOService.adjPair "time" (PyVal.int 100) (PyVal.int 109)
        = Except.ok () ↔ |(100 : Int) - 109| < 10)
    ∧ (∀ d, SprunedVOService.joinData 3
        [[("mediantime", PyVal.int 100)], [("mediantime", PyVal.int 105)],
         [("mediantime", PyVal.int 106)]] ≠ Except.ok d)
    ∧ (SprunedVOService.checkAdj "time" [PyVal.int 100, PyVal.int 109] = Except.ok ()
        ↔ (∀ pre (x y z : PyVal) post,
            [PyVal.int 100, PyVal.int 109] = pre ++ x :: y :: z :: post →
            SprunedVOService.adjPair "time" x y = Except.ok ())) :=
  ⟨claim1_join_rule.2.2.1 "mediantime" (PyVal.int 100) (PyVal.int 105) (by decide),
   claim1_join_rule.2.1 100 109,
   claim1_join_rule.2.2.2 3 [("mediantime", PyVal.int 100)]
     [[("mediantime", PyVal.int 105)], [("mediantime", PyVal.int 106)]]
     "mediantime" (PyVal.int 100) PyErr.assertionError (by decide) (by decide),
   claim1_join_rule.1 "time" [PyVal.int 100, PyVal.int 109]⟩
